import Mathlib

/-!
# Verification of the paint-automation coordinate/calibration layer

Shallow embedding of the coordinate-mapping, calibration, drawing-executor
and verification logic of the `paint-ai-agent` repository, together with
proofs and refutations of the specified properties.

Conventions:
* Python integers are modelled as `Int`.
* Python floor division `//` and `int(x)` applied to a non-negative float
  expression built from integer operands are modelled with `Int.ediv`
  (floor division; the two agree on the non-negative operand ranges the
  program uses).  Python `int(x)` on a possibly negative exact dyadic
  value (truncation toward zero) is modelled with `Int.tdiv`.
* Fallible code returns `Option`.
-/

namespace PaintAgent

/-! ## CanvasMapper: talk2mcp.py

`update_canvas_dimensions` (src/talk2mcp.py lines 110-113) computes the
global canvas rectangle from the Paint window rectangle
`(left, top, right, bottom)`:

    CANVAS_X = max(rect[0] + 5, 0)
    CANVAS_Y = max(rect[1] + 150, 0)
    CANVAS_WIDTH = max(rect[2] - rect[0] - 30, 100)
    CANVAS_HEIGHT = max(rect[3] - rect[1] - 200, 100)
-/

structure Canvas where
  x : Int
  y : Int
  width : Int
  height : Int
  deriving DecidableEq, Repr

/-- `update_canvas_dimensions` callback body (src/talk2mcp.py 110-113),
applied to the rectangle of a found Paint window. -/
def updateCanvasDimensions (l t r b : Int) : Canvas :=
  { x := max (l + 5) 0
    y := max (t + 150) 0
    width := max (r - l - 30) 100
    height := max (b - t - 200) 100 }

/-- The `EnumWindows` wrapper: given the rectangle of the Paint window when
one is found (`none` when no window matches), `update_canvas_dimensions`
either reports failure or stores the computed canvas. -/
def updateCanvasDimensionsOpt (found : Option (Int × Int × Int × Int)) :
    Option Canvas :=
  found.map (fun (l, t, r, b) => updateCanvasDimensions l t r b)

/-- One axis of the normalized-to-screen scaling in `execute_tool`
(src/talk2mcp.py 234-237):
`start_x = int(CANVAS_X + (rel_start_x * CANVAS_WIDTH / 1000))`. -/
def scaleCoord (base extent s : Int) : Int :=
  base + (s * extent).ediv 1000

/-- One axis of the safe-bounds clamp in `execute_tool`
(src/talk2mcp.py 240-243):
`start_x = max(CANVAS_X + 10, min(start_x, CANVAS_X + CANVAS_WIDTH - 10))`. -/
def clampCoord (base extent v : Int) : Int :=
  max (base + 10) (min v (base + extent - 10))

/-- Full normalized-to-screen conversion for one axis: scale then clamp. -/
def normToScreen (base extent s : Int) : Int :=
  clampCoord base extent (scaleCoord base extent s)

/-! ## CanvasMapper: final_paint_tester.py

`get_canvas_info` (src/final_paint_tester.py 144-160) derives the canvas
bounds from the window rectangle with fixed margins
`title=30, ribbon=130, status=30, left=50, right=30`. -/

structure CanvasBounds where
  left : Int
  top : Int
  right : Int
  bottom : Int
  deriving DecidableEq, Repr

/-- Margin arithmetic of `get_canvas_info` (src/final_paint_tester.py
144-160), applied to the rectangle of a found Paint window. -/
def getCanvasInfo (winLeft winTop winRight winBottom : Int) : CanvasBounds :=
  let titleHeight : Int := 30
  let ribbonHeight : Int := 130
  let statusHeight : Int := 30
  let leftMargin : Int := 50
  let rightMargin : Int := 30
  { left := winLeft + leftMargin
    top := winTop + titleHeight + ribbonHeight
    right := winRight - rightMargin
    bottom := winBottom - statusHeight }

/-- `get_canvas_info` wrapped over window lookup: bounds are produced for
any found window rectangle; `None` only when no window is found. -/
def getCanvasInfoOpt (found : Option (Int × Int × Int × Int)) :
    Option CanvasBounds :=
  found.map (fun (l, t, r, b) => getCanvasInfo l t r b)

/-! ## Circle aspect-ratio correction (src/talk2mcp.py)

Normalized-space correction (lines 221-231):

    center_x = (rel_start_x + rel_end_x) // 2
    center_y = (rel_start_y + rel_end_y) // 2
    radius = min(abs(rel_end_x - rel_start_x), abs(rel_end_y - rel_start_y)) // 2
    rel_start_x = center_x - radius ... rel_end_y = center_y + radius
-/

structure Quad where
  sx : Int
  sy : Int
  ex : Int
  ey : Int
  deriving DecidableEq, Repr

/-- Normalized-space circle correction (src/talk2mcp.py 221-231). -/
def circleNormCorrect (q : Quad) : Quad :=
  let centerX := (q.sx + q.ex).ediv 2
  let centerY := (q.sy + q.ey).ediv 2
  let radius := (min |q.ex - q.sx| |q.ey - q.sy|).ediv 2
  { sx := centerX - radius
    sy := centerY - radius
    ex := centerX + radius
    ey := centerY + radius }

/-- Screen-space circle re-correction after clamping (src/talk2mcp.py
246-255):

    width = end_x - start_x; height = end_y - start_y
    size = min(width, height)
    center_x = (start_x + end_x) // 2; center_y = (start_y + end_y) // 2
    start_x = center_x - size // 2 ... end_y = center_y + size // 2
-/
def circleScreenCorrect (q : Quad) : Quad :=
  let width := q.ex - q.sx
  let height := q.ey - q.sy
  let size := min width height
  let centerX := (q.sx + q.ex).ediv 2
  let centerY := (q.sy + q.ey).ediv 2
  { sx := centerX - size.ediv 2
    sy := centerY - size.ediv 2
    ex := centerX + size.ediv 2
    ey := centerY + size.ediv 2 }

/-- The full coordinate pipeline of `execute_tool` for a circle command
(src/talk2mcp.py 221-255): normalized correction, per-axis scaling,
per-axis clamping, then screen-space re-correction. -/
def circlePipeline (c : Canvas) (q : Quad) : Quad :=
  let n := circleNormCorrect q
  let a := clampCoord c.x c.width (scaleCoord c.x c.width n.sx)
  let b := clampCoord c.y c.height (scaleCoord c.y c.height n.sy)
  let a' := clampCoord c.x c.width (scaleCoord c.x c.width n.ex)
  let b' := clampCoord c.y c.height (scaleCoord c.y c.height n.ey)
  circleScreenCorrect { sx := a, sy := b, ex := a', ey := b' }

/-! ## ActionExecutor: pointer action sequences (src/tools/paint_commands.py)

The drawing functions emit a fixed sequence of pointer/keyboard primitives.
We model the primitives that matter for the button-state property and
inject a failure point: an exception raised at step `i` aborts the
remaining steps and runs the `except`-handler's actions instead. -/

inductive Action where
  | move : Action
  | click : Action
  | down : Action
  | up : Action
  | key : Action
  deriving DecidableEq, Repr

/-- Run a step list with an exception injected before step `failAt`
(0-based); steps before it complete, the rest are skipped and the
`except`-handler's actions run.  `failAt ≥ steps.length` means no
exception occurs (and the handler does not run). -/
def runWithFailure (steps handler : List Action) (failAt : Nat) : List Action :=
  if failAt < steps.length then steps.take failAt ++ handler else steps

/-- Whether the simulated mouse button is held at the end of a trace. -/
def buttonHeld (trace : List Action) : Bool :=
  trace.foldl (fun held a =>
    match a with
    | .down => true
    | .up => false
    | _ => held) false

/-- Pointer steps of `draw_shape` after tool selection
(src/tools/paint_commands.py 645-680): move to neutral, highlight (moves),
move to start, mouseDown, move to end, mouseUp, move away. -/
def drawShapeSteps : List Action :=
  [.move, .move, .move, .down, .move, .up, .move]

/-- `except`-handler of `draw_shape` (src/tools/paint_commands.py 685-689):
logs the error and performs an emergency `pyautogui.mouseUp()`. -/
def drawShapeHandler : List Action := [.up]

/-- Pointer steps of `draw_circle` (src/tools/paint_commands.py 965-983):
move to center, move to start, mouseDown, move to end, mouseUp, move back. -/
def drawCircleSteps : List Action :=
  [.move, .move, .down, .move, .up, .move]

/-- `except`-handler of `draw_circle` (src/tools/paint_commands.py
1025-1027): logs the error and returns `False` — it issues no mouse-up. -/
def drawCircleHandler : List Action := []

/-! ## CommandDispatcher: tool/color resolution

`execute_tool`'s `select_color` branch (src/talk2mcp.py 329-369) lowers the
label, applies the fixed synonym table `color_map`, and looks the result up
in `CALIBRATED_POSITIONS`; a missing entry prints an error and returns
`False` (the batch loop in `process_llm_response` then simply moves on to
the next command). -/

/-- ASCII lowercasing of one character, as Python `str.lower()` acts on the
ASCII labels the program uses. -/
def asciiLower (c : Char) : Char :=
  if 'A' ≤ c && c ≤ 'Z' then Char.ofNat (c.toNat + 32) else c

/-- Python `str.lower()` on ASCII label strings. -/
def lowerString (s : String) : String :=
  String.mk (s.toList.map asciiLower)

/-- The fixed synonym table `color_map` (src/talk2mcp.py 334-355). -/
def colorMapTable : List (String × String) :=
  [("blue", "indigo"),
   ("light blue", "torquoise"),
   ("dark blue", "blue grey"),
   ("orange", "orange"),
   ("yellow", "yellow"),
   ("light yellow", "light yellow"),
   ("green", "green"),
   ("light green", "lime"),
   ("purple", "purple"),
   ("violet", "lavender"),
   ("brown", "brown"),
   ("pink", "rose"),
   ("red", "red"),
   ("dark red", "dark red"),
   ("black", "black color"),
   ("white", "white"),
   ("gray", "gray-50%"),
   ("grey", "gray-50%"),
   ("light gray", "grey-25%"),
   ("light grey", "grey-25%")]

/-- `color_map.get(color_name, color_name)` (src/talk2mcp.py 357). -/
def colorMapGet (name : String) : String :=
  (colorMapTable.lookup name).getD name

/-- The `select_color` branch of `execute_tool` (src/talk2mcp.py 329-369):
returns the calibrated click position, or `none` (= `return False`) when
the mapped name has no entry in the calibration profile. -/
def executeSelectColor (positions : List (String × Int × Int))
    (name : String) : Option (Int × Int) :=
  let calibrated := colorMapGet (lowerString name)
  match positions.find? (fun p => p.1 == calibrated) with
  | none => none
  | some (_, x, y) => some (x, y)

/-- Batch tally of `process_llm_response` (src/talk2mcp.py 456-484): each
command is executed in order, failures are skipped, and the successes are
counted; the batch is never aborted early. -/
def batchSuccesses (results : List Bool) : Nat :=
  results.foldl (fun n ok => if ok then n + 1 else n) 0

/-- Color names known to `paint_commands.select_color`'s hard-coded
`color_positions` table (src/tools/paint_commands.py 528-534). -/
def pcColorNames : List String := ["black", "white", "red", "blue", "green"]

/-- Name resolution of `paint_commands.select_color`
(src/tools/paint_commands.py 536-537):
`if color_name not in color_positions: color_name = 'black'` —
an unknown color silently falls back to the default `'black'`. -/
def pcResolveColor (name : String) : String :=
  if pcColorNames.contains name then name else "black"

/-! ## CalibrationStore (src/enhanced_calibrate.py, src/talk2mcp.py)

A calibration profile is a mapping from labels to screen points; we model
it as an association list of `(label, x, y)` entries.  `save_profile`
serializes it with `json.dump(positions, f, indent=4)`; we model the file
content as its list of lines.  `load_paint_positions` parses a
line-oriented `label: (x, y)` format. -/

abbrev Profile := List (String × Int × Int)

/-- `validate_position` (src/enhanced_calibrate.py 99-102):
`0 <= x <= screen_width and 0 <= y <= screen_height`. -/
def validatePosition (x y screenWidth screenHeight : Int) : Bool :=
  0 ≤ x && x ≤ screenWidth && 0 ≤ y && y ≤ screenHeight

/-- Lines of one entry in `json.dump(positions, f, indent=4)` output: the
label with its two-element coordinate array, each number on its own
indented line; `comma` marks entries other than the last. -/
def jsonEntryLines (name : String) (x y : Int) (comma : Bool) : List String :=
  ["    \x22" ++ name ++ "\x22: [",
   "        " ++ toString x ++ ",",
   "        " ++ toString y,
   "    ]" ++ (if comma then "," else "")]

/-- Entry lines for a whole profile, comma-separating all but the last. -/
def jsonEntriesLines : Profile → List String
  | [] => []
  | [(n, x, y)] => jsonEntryLines n x y false
  | (n, x, y) :: rest => jsonEntryLines n x y true ++ jsonEntriesLines rest

/-- File content (as lines) written by `save_profile`
(src/enhanced_calibrate.py 104-117), i.e. the output of
`json.dump(self.positions, f, indent=4)`. -/
def saveProfileLines (p : Profile) : List String :=
  match p with
  | [] => ["\x7b\x7d"]
  | _ => "\x7b" :: jsonEntriesLines p ++ ["\x7d"]

/-- Python `str.strip()`: drop whitespace from both ends. -/
def trimChars (cs : List Char) : List Char :=
  ((cs.dropWhile Char.isWhitespace).reverse.dropWhile Char.isWhitespace).reverse

/-- Python `str.split(sep)` for a single-character separator: split the
character list at every occurrence of `c` (empty pieces kept). -/
def splitOnChar (c : Char) : List Char → List (List Char)
  | [] => [[]]
  | x :: xs =>
    match splitOnChar c xs with
    | [] => [[]]
    | h :: t => if x == c then [] :: h :: t else (x :: h) :: t

/-- Integer parser for the coordinate literals inside a `(x, y)` tuple:
an optional minus sign followed by at least one digit. -/
def parseInt (cs : List Char) : Option (Int × List Char) :=
  let (neg, cs') := match cs with
    | '-' :: rest => (true, rest)
    | _ => (false, cs)
  let digits := cs'.takeWhile Char.isDigit
  let rest := cs'.dropWhile Char.isDigit
  if digits.isEmpty then none
  else
    let n : Nat := digits.foldl (fun acc c => acc * 10 + (c.toNat - 48)) 0
    some (if neg then -(n : Int) else (n : Int), rest)

/-- Models `eval(pos.strip())` as used by `load_paint_positions`
(src/talk2mcp.py 136) on its expected input: a Python pair literal
`(x, y)` of two integers (arbitrary interior spacing).  Any other string
makes `eval` raise, modelled as `none`. -/
def evalPair (s : List Char) : Option (Int × Int) :=
  match s with
  | '(' :: rest =>
    let rest := rest.dropWhile (· == ' ')
    match parseInt rest with
    | none => none
    | some (x, rest) =>
      let rest := rest.dropWhile (· == ' ')
      match rest with
      | ',' :: rest =>
        let rest := rest.dropWhile (· == ' ')
        match parseInt rest with
        | none => none
        | some (y, rest) =>
          let rest := rest.dropWhile (· == ' ')
          match rest with
          | [')'] => some (x, y)
          | _ => none
      | _ => none
  | _ => none

/-- `load_paint_positions` (src/talk2mcp.py 126-142) over the file's lines:
lines without `':'` are skipped; a line with `':'` is stripped and split on
`':'` (the unpacking `name, pos = ...` raises unless there are exactly two
parts), the name is stripped and the position `eval`ed.  Any raised
exception makes the whole load return `None`. -/
def loadPaintPositions (lines : List String) : Option Profile := do
  let entries ← lines.foldlM (fun (acc : Profile) line => do
    if line.toList.contains ':' then
      match splitOnChar ':' (trimChars line.toList) with
      | [name, pos] =>
        let (x, y) ← evalPair (trimChars pos)
        pure ((String.mk (trimChars name), x, y) :: acc)
      | _ => none
    else
      pure acc) []
  pure entries.reverse

/-! ## VerificationEngine (src/tools/paint_commands.py draw_rectangle)

`draw_rectangle` (src/tools/paint_commands.py 845-908) samples the four
edges of the drawn rectangle every 10 pixels in the before/after
screenshots, counts changed samples, and succeeds iff
`pixels_changed > 5`.  A screenshot is modelled as a pixel-color
function `Int → Int → Int`. -/

/-- Python `range(a, b, 10)`: the integers `a, a+10, ...` below `b`. -/
def pyRange10 (a b : Int) : List Int :=
  (List.range ((b - a + 9).ediv 10).toNat).map (fun i => a + 10 * i)

/-- Changed-sample count of the verification loop
(src/tools/paint_commands.py 847-891): top and bottom edges are sampled at
each `x` of `range(min x, max x, 10)`, left and right edges at each `y` of
`range(min y, max y, 10)`; each sample comparing the before and after
screenshots. -/
def countChanged (before after : Int → Int → Int)
    (x1 y1 x2 y2 : Int) : Nat :=
  let xs := pyRange10 (min x1 x2) (max x1 x2)
  let ys := pyRange10 (min y1 y2) (max y1 y2)
  (xs.filter (fun x => before x (min y1 y2) != after x (min y1 y2))).length +
  (xs.filter (fun x => before x (max y1 y2) != after x (max y1 y2))).length +
  (ys.filter (fun y => before (min x1 x2) y != after (min x1 x2) y)).length +
  (ys.filter (fun y => before (max x1 x2) y != after (max x1 x2) y)).length

/-- Verification verdict of `draw_rectangle`
(src/tools/paint_commands.py 903-908): success iff `pixels_changed > 5`. -/
def verifyRectangle (before after : Int → Int → Int)
    (x1 y1 x2 y2 : Int) : Bool :=
  5 < countChanged before after x1 y1 x2 y2

/-! ## get_paint_canvas_info (src/tools/paint_commands.py 423-505)

Returns the canvas area both as the tuple
`(canvas_left, canvas_top, canvas_width, canvas_height)` and as a
dictionary with keys `left, top, right, bottom, width, height`. -/

structure CanvasInfoPC where
  tup : Int × Int × Int × Int
  left : Int
  top : Int
  right : Int
  bottom : Int
  width : Int
  height : Int
  deriving DecidableEq, Repr

/-- `get_paint_canvas_info` (src/tools/paint_commands.py 440-505) for a
found window with rectangle `(l, t, r, b)`: margins
`title=32, ribbon=93, status=26, left=10`, right margin
`int(win_width * 0.25)` (exact dyadic product, truncated toward zero). -/
def getPaintCanvasInfo (l t r b : Int) : CanvasInfoPC :=
  let winWidth := r - l
  let titleHeight : Int := 32
  let ribbonHeight : Int := 93
  let statusHeight : Int := 26
  let leftMargin : Int := 10
  let rightMargin : Int := (winWidth * 25).tdiv 100
  let canvasLeft := l + leftMargin
  let canvasTop := t + titleHeight + ribbonHeight
  let canvasRight := r - rightMargin
  let canvasBottom := b - statusHeight
  let canvasWidth := canvasRight - canvasLeft
  let canvasHeight := canvasBottom - canvasTop
  { tup := (canvasLeft, canvasTop, canvasWidth, canvasHeight)
    left := canvasLeft
    top := canvasTop
    right := canvasRight
    bottom := canvasBottom
    width := canvasWidth
    height := canvasHeight }

/-! ## Theorems -/

/-- One axis of the clamped conversion stays inside `[base, base + extent]`
whenever the extent is at least the two 10-pixel insets minus their
overlap, i.e. `10 ≤ extent`.  The clamp output is always at least
`base + 10` and at most `max (base + 10) (base + extent - 10)`. -/
theorem normToScreen_mem (base extent s : Int) (h : 10 ≤ extent) :
    base ≤ normToScreen base extent s ∧
    normToScreen base extent s ≤ base + extent := by
  unfold normToScreen clampCoord
  constructor
  · calc base ≤ base + 10 := by omega
    _ ≤ _ := le_max_left _ _
  · apply max_le
    · omega
    · calc min (scaleCoord base extent s) (base + extent - 10)
          ≤ base + extent - 10 := min_le_right _ _
      _ ≤ base + extent := by omega

/-- C1 (amended): for every normalized point `p` with
`0 ≤ p.x, p.y ≤ 1000` and canvas bounds whose width and height are at
least 10 (the code always ensures at least 100), the converted screen
point lies within `[left, right] × [top, bottom]` where
`right = left + width`, `bottom = top + height`. -/
theorem circleMapper_toScreen_within_bounds
    (left top width height px py : Int)
    (_hx0 : 0 ≤ px) (_hx1 : px ≤ 1000) (_hy0 : 0 ≤ py) (_hy1 : py ≤ 1000)
    (hw : 10 ≤ width) (hh : 10 ≤ height) :
    left ≤ normToScreen left width px ∧
    normToScreen left width px ≤ left + width ∧
    top ≤ normToScreen top height py ∧
    normToScreen top height py ≤ top + height := by
  obtain ⟨h1, h2⟩ := normToScreen_mem left width px hw
  obtain ⟨h3, h4⟩ := normToScreen_mem top height py hh
  exact ⟨h1, h2, h3, h4⟩

/-- Witness for C1 (amended) at `left = 50, top = 160, width = 1840,
height = 890, p = (500, 500)`. -/
theorem circleMapper_toScreen_within_bounds_witness :
    50 ≤ normToScreen 50 1840 500 ∧
    normToScreen 50 1840 500 ≤ 50 + 1840 ∧
    160 ≤ normToScreen 160 890 500 ∧
    normToScreen 160 890 500 ≤ 160 + 890 :=
  circleMapper_toScreen_within_bounds 50 160 1840 890 500 500
    (by decide) (by decide) (by decide) (by decide) (by decide) (by decide)

/-- C1 counterexample: bounds with `left = 0` and the positive width `5`
are valid under the claim's hypothesis, and the normalized x-coordinate
`0` is in `[0, 1000]`, yet the converted coordinate `10` exceeds
`right = left + width = 5`: the 10-pixel inset pushes the result outside
bounds thinner than 10 pixels. -/
theorem circleMapper_toScreen_escapes_thin_bounds :
    (0 : Int) < 5 ∧ (0 : Int) ≤ 0 ∧ (0 : Int) ≤ 1000 ∧
    normToScreen 0 5 0 = 10 ∧ ¬ normToScreen 0 5 0 ≤ 0 + 5 := by
  decide

/-- C2: the window rectangle `(0, 0, 1920, 1080)` with margins
`title=30, ribbon=130, status=30, left=50, right=30` yields the canvas
bounds `(left=50, top=160, right=1890, bottom=1050)` (Scenario A), and
the normalized point `(500, 500)` on those bounds (width 1840, height
890) converts to the screen point `(970, 605)` (Scenario B). -/
theorem canvas_scenario_A_B :
    getCanvasInfo 0 0 1920 1080 =
      { left := 50, top := 160, right := 1890, bottom := 1050 } ∧
    (1890 - 50 : Int) = 1840 ∧ (1050 - 160 : Int) = 890 ∧
    normToScreen 50 1840 500 = 970 ∧ normToScreen 160 890 500 = 605 := by
  decide

/-- The screen-space re-correction always equalizes the two spans: both
become `2 * (min width height // 2)`. -/
theorem circleScreenCorrect_equal_spans (q : Quad) :
    (circleScreenCorrect q).ex - (circleScreenCorrect q).sx =
    (circleScreenCorrect q).ey - (circleScreenCorrect q).sy := by
  simp only [circleScreenCorrect]
  ring

/-- C3: for every circle command, after the aspect-ratio correction
(applied in normalized space before scaling and re-applied in screen
space after clamping), the screen-space width and height of the drag
rectangle differ by at most 1 pixel — in fact they are equal. -/
theorem circle_aspect_ratio_preserved (c : Canvas) (q : Quad) :
    |((circlePipeline c q).ex - (circlePipeline c q).sx) -
      ((circlePipeline c q).ey - (circlePipeline c q).sy)| ≤ 1 := by
  have h : circlePipeline c q = circleScreenCorrect
      { sx := clampCoord c.x c.width
                (scaleCoord c.x c.width (circleNormCorrect q).sx)
        sy := clampCoord c.y c.height
                (scaleCoord c.y c.height (circleNormCorrect q).sy)
        ex := clampCoord c.x c.width
                (scaleCoord c.x c.width (circleNormCorrect q).ex)
        ey := clampCoord c.y c.height
                (scaleCoord c.y c.height (circleNormCorrect q).ey) } := rfl
  rw [h, circleScreenCorrect_equal_spans]
  simp

/-- C4 counterexample: the circle command with corners `(300, 200)` and
`(700, 200)` has spans 400 and 0, so the radius is `min 400 0 // 2 = 0`
and the corrected corners collapse to the single point `(500, 200)` —
not a 400×400 square. -/
theorem circleNormCorrect_scenario_C_not_400 :
    circleNormCorrect { sx := 300, sy := 200, ex := 700, ey := 200 } =
      { sx := 500, sy := 200, ex := 500, ey := 200 } ∧
    ¬ ((circleNormCorrect { sx := 300, sy := 200, ex := 700, ey := 200 }).ex -
        (circleNormCorrect { sx := 300, sy := 200, ex := 700, ey := 200 }).sx
        = 400) := by
  decide

/-- C4 (amended): the circle correction on corners `(300, 200)`-`(700, 200)`
derives the radius from the smaller of the two spans, `min 400 0 // 2 = 0`,
producing the degenerate 1:1 span 0×0 centred at `(500, 200)` before
scaling. -/
theorem circleNormCorrect_scenario_C_degenerate :
    circleNormCorrect { sx := 300, sy := 200, ex := 700, ey := 200 } =
      { sx := 500, sy := 200, ex := 500, ey := 200 } ∧
    (circleNormCorrect { sx := 300, sy := 200, ex := 700, ey := 200 }).ex -
      (circleNormCorrect { sx := 300, sy := 200, ex := 700, ey := 200 }).sx
      = 0 ∧
    (circleNormCorrect { sx := 300, sy := 200, ex := 700, ey := 200 }).ey -
      (circleNormCorrect { sx := 300, sy := 200, ex := 700, ey := 200 }).sy
      = 0 := by
  decide

/-- C5 (code bug): if an exception is raised while `draw_circle` drags to
the end point (step 3, after `mouseDown`), its `except`-handler issues no
button release and the trace ends with the button held; `draw_shape`'s
handler, by contrast, releases the button when failing at the analogous
step. -/
theorem drawCircle_error_leaves_button_held :
    buttonHeld (runWithFailure drawCircleSteps drawCircleHandler 3) = true ∧
    buttonHeld (runWithFailure drawShapeSteps drawShapeHandler 4) = false := by
  decide

/-- C6 (amended): in the `talk2mcp` dispatcher, a color label whose
synonym-mapped name has no entry in the calibration profile makes
`execute_tool` fail (return `False`); the batch tally counts it as a
failure but the remaining commands still run (no abort). -/
theorem unknown_color_label_skipped
    (positions : List (String × Int × Int)) (name : String)
    (h : positions.find? (fun p => p.1 == colorMapGet (lowerString name))
          = none)
    (rest : List Bool) :
    executeSelectColor positions name = none ∧
    batchSuccesses ((executeSelectColor positions name).isSome :: rest) =
      batchSuccesses rest := by
  have hnone : executeSelectColor positions name = none := by
    simp only [executeSelectColor]
    rw [h]
  refine ⟨hnone, ?_⟩
  rw [hnone]
  rfl

/-- Witness for C6 (amended): the label `"mauve"` with a profile that only
calibrates `"red"`. -/
theorem unknown_color_label_skipped_witness :
    executeSelectColor [("red", 10, 20)] "mauve" = none ∧
    batchSuccesses ((executeSelectColor [("red", 10, 20)] "mauve").isSome ::
      [true, false]) = batchSuccesses [true, false] :=
  unknown_color_label_skipped [("red", 10, 20)] "mauve" (by decide)
    [true, false]

/-- C6 counterexample: `paint_commands.select_color` resolves the unknown
color label `"mauve"` (absent from its `color_positions` table, and with
no synonym entry) to the default `'black'` and proceeds — it substitutes a
default color rather than failing. -/
theorem pc_select_color_substitutes_default :
    pcResolveColor "mauve" = "black" ∧ pcResolveColor "mauve" ≠ "mauve" := by
  decide

/-- C7 (amended): computing canvas bounds never fails on a degenerate
window rectangle: for any found window rectangle,
`update_canvas_dimensions` returns bounds with width and height clamped
up to at least 100, and `get_canvas_info` returns its margin-derived
bounds unconditionally. -/
theorem degenerate_rect_still_returns_bounds (l t r b : Int) :
    (updateCanvasDimensionsOpt (some (l, t, r, b))).isSome = true ∧
    100 ≤ (updateCanvasDimensions l t r b).width ∧
    100 ≤ (updateCanvasDimensions l t r b).height ∧
    (getCanvasInfoOpt (some (l, t, r, b))).isSome = true := by
  refine ⟨rfl, ?_, ?_, rfl⟩
  · exact le_max_right _ _
  · exact le_max_right _ _

/-- C7 counterexample: the window rectangle `(0, 0, 0, 0)` is degenerate
(width `0 ≤ 0`), yet `update_canvas_dimensions` returns the clamped
bounds `(5, 150, 100, 100)` and `get_canvas_info` returns the (inverted)
bounds `(50, 160, -30, -30)` — neither fails. -/
theorem degenerate_rect_counterexample :
    (0 - 0 : Int) ≤ 0 ∧
    updateCanvasDimensionsOpt (some (0, 0, 0, 0)) =
      some { x := 5, y := 150, width := 100, height := 100 } ∧
    getCanvasInfoOpt (some (0, 0, 0, 0)) =
      some { left := 50, top := 160, right := -30, bottom := -30 } := by
  decide

/-- C8 counterexample: saving the valid one-entry profile
`{"red": (100, 200)}` writes an indented JSON document, which the
line-oriented loader fails to parse — the round-trip does not return the
profile. -/
theorem calibration_roundtrip_fails :
    ¬ (loadPaintPositions (saveProfileLines [("red", 100, 200)]) =
        some [("red", 100, 200)]) := by
  decide

/-- C8 (amended): `save_profile` writes JSON (`json.dump(..., indent=4)`)
while `load_paint_positions` parses `label: (x, y)` lines from a separate
fixed path, so loading the text produced by save fails (`eval` raises on
the first entry line and the loader returns `None`); the loader does
recover a profile written in its own line format. -/
theorem calibration_save_load_mismatch :
    loadPaintPositions (saveProfileLines [("red", 100, 200)]) = none ∧
    loadPaintPositions ["red: (100, 200)", "oval: (52, 141)"] =
      some [("red", 100, 200), ("oval", 52, 141)] := by
  decide

/-- C9: rectangle verification succeeds iff the number of changed
perimeter samples exceeds the fixed threshold 5; in particular 0 changed
samples yield failure and 12 yield success. -/
theorem verification_threshold (before after : Int → Int → Int)
    (x1 y1 x2 y2 : Int) :
    (verifyRectangle before after x1 y1 x2 y2 = true ↔
      5 < countChanged before after x1 y1 x2 y2) ∧
    (countChanged before after x1 y1 x2 y2 = 0 →
      verifyRectangle before after x1 y1 x2 y2 = false) ∧
    (countChanged before after x1 y1 x2 y2 = 12 →
      verifyRectangle before after x1 y1 x2 y2 = true) := by
  unfold verifyRectangle
  refine ⟨by simp, fun h => by simp [h], fun h => by simp [h]⟩

/-- An unchanged screen for the C9 witness. -/
def screenBlank : Int → Int → Int := fun _ _ => 0

/-- An after-screenshot for the C9 witness that changes exactly 12 of the
perimeter samples of the rectangle `(0, 0)`-`(100, 10)`. -/
def screenTwelveChanged : Int → Int → Int := fun x y =>
  if (y = 0 ∨ y = 10) ∧ 10 ≤ x ∧ x ≤ 60 then 1 else 0

/-- Witness for C9: on the rectangle `(0, 0)`-`(100, 10)`, identical
captures give 0 changed samples and failure, and a capture differing at
12 perimeter samples gives success. -/
theorem verification_threshold_witness :
    countChanged screenBlank screenBlank 0 0 100 10 = 0 ∧
    verifyRectangle screenBlank screenBlank 0 0 100 10 = false ∧
    countChanged screenBlank screenTwelveChanged 0 0 100 10 = 12 ∧
    verifyRectangle screenBlank screenTwelveChanged 0 0 100 10 = true :=
  ⟨by decide,
   (verification_threshold screenBlank screenBlank 0 0 100 10).2.1
     (by decide),
   by decide,
   (verification_threshold screenBlank screenTwelveChanged 0 0 100 10).2.2
     (by decide)⟩

/-- C10: every canvas-info value returned by `get_paint_canvas_info` is
consistent across its dual tuple/dictionary interface: tuple index 0/1/2/3
equal the `left`/`top`/`width`/`height` entries, and `right = left +
width`, `bottom = top + height`. -/
theorem canvas_info_dual_interface_consistent (l t r b : Int) :
    (getPaintCanvasInfo l t r b).tup.1 = (getPaintCanvasInfo l t r b).left ∧
    (getPaintCanvasInfo l t r b).tup.2.1 =
      (getPaintCanvasInfo l t r b).top ∧
    (getPaintCanvasInfo l t r b).tup.2.2.1 =
      (getPaintCanvasInfo l t r b).width ∧
    (getPaintCanvasInfo l t r b).tup.2.2.2 =
      (getPaintCanvasInfo l t r b).height ∧
    (getPaintCanvasInfo l t r b).right =
      (getPaintCanvasInfo l t r b).left + (getPaintCanvasInfo l t r b).width ∧
    (getPaintCanvasInfo l t r b).bottom =
      (getPaintCanvasInfo l t r b).top + (getPaintCanvasInfo l t r b).height := by
  refine ⟨rfl, rfl, rfl, rfl, ?_, ?_⟩ <;>
    simp only [getPaintCanvasInfo] <;> ring

end PaintAgent
